import Mathlib

/-!
Verification of `scripts/download_samples.py` from the
data4sustainablecities repository.

The script is a best-effort sample-data fetcher: three per-source
orchestrators each perform one HTTP GET through a generic fetch helper
(`http_download`), write the payload and a JSON metadata sidecar on
success, and the CSV source falls back to a README instructions file
when every candidate URL fails; a final step writes static placeholder
READMEs for five more providers; a driver (`main`) sequences the steps
and counts successes.

Embedding choices:
* The filesystem is an association list of files (path string to content
  string; a write prepends, a lookup takes the most recent entry, which
  gives overwrite semantics) plus the set of directories created so far.
* The outside world is an oracle `Sys`.  `net url timeout` is the
  outcome of the streamed GET of `url` inside the helper's `try`:
  `.ok body` when the complete body is delivered and written;
  `.failEarly` when the attempt fails before the destination file is
  opened (connection error, timeout, non-2xx from `raise_for_status`, a
  failing `open`; whether the parent `mkdir` already ran in that window
  is not tracked, since no property reads directories after a failure);
  `.failMid partialBody` when the error arrives after
  `open(out_path, "wb")` truncated the destination — any prior content
  is gone and the chunks flushed so far (`partialBody`) remain on disk.
  The helper catches all three, but the two failure modes differ in what
  they leave at the destination, exactly as in the Python code, where
  the `open` and the chunk writes sit inside the streaming `try`.
  `wok p` says whether a file write *outside* any `try` succeeds: the
  metadata sidecars, the WRI README fallback and the placeholder files
  raise `Err.ioError` when `wok` is false, mirroring the Python code,
  which has no handler around them.
* Observable behaviour (HTTP attempts and printed lines) is an event
  trace accumulated in the run state.  The diagnostic printed by the
  fetch helper elides the Python exception text, which is irrelevant to
  the properties below.
* Paths are strings relative to the repository root; `DATA_DIR` is the
  prefix `data`.  `ensure_directory` registers the named directory
  (Python's `mkdir(parents=True, exist_ok=True)`); ancestor directories
  are not tracked separately since no property depends on them.
* JSON numbers are carried as their literal text (`40.4`, `512`), which
  is exactly how they appear in the serialized file; no floating-point
  arithmetic is performed on them anywhere in the program.
-/

/-- Filesystem model: files as an association list (most recent write
first) and the set of created directories. -/
structure FS where
  files : List (String × String)
  dirs : List String
deriving Repr, DecidableEq

/-- Content of the file at path `p`, if present. -/
def fsLookup (fs : FS) (p : String) : Option String :=
  fs.files.lookup p

/-- Write `c` at path `p`, overwriting any existing file (the new entry
shadows older ones under `fsLookup`). -/
def fsWrite (fs : FS) (p : String) (c : String) : FS :=
  { fs with files := (p, c) :: fs.files }

/-- True when a file exists at path `p`. -/
def fsExists (fs : FS) (p : String) : Bool :=
  (fsLookup fs p).isSome

/-- Observable events of a run: HTTP GET attempts and printed lines. -/
inductive Ev where
  | get (url : String) (timeoutSeconds : Nat)
  | print (line : String)
deriving Repr, DecidableEq

/-- True on HTTP GET attempt events. -/
def Ev.isGet : Ev → Bool
  | .get _ _ => true
  | .print _ => false

/-- Run state: the filesystem together with the event trace so far. -/
structure St where
  fs : FS
  output : List Ev
deriving Repr, DecidableEq

/-- Empty filesystem, empty trace. -/
def stEmpty : St := ⟨⟨[], []⟩, []⟩

/-- Append a printed line to the trace. -/
def stPrint (st : St) (line : String) : St :=
  { st with output := st.output ++ [Ev.print line] }

/-- Append an HTTP GET attempt to the trace. -/
def stGet (st : St) (url : String) (timeoutSeconds : Nat) : St :=
  { st with output := st.output ++ [Ev.get url timeoutSeconds] }

/-- Uncaught errors: an I/O error raised by an unguarded file write. -/
inductive Err where
  | ioError (path : String)
deriving Repr, DecidableEq

/-- Outcome of one streamed GET performed inside the fetch helper's
`try`: the full body delivered and written; a failure before the
destination was opened; or a failure after `open(out_path, "wb")`
truncated the destination, with the chunks flushed so far left on
disk. -/
inductive FetchOutcome where
  | ok (body : String)
  | failEarly
  | failMid (partialBody : String)
deriving Repr, DecidableEq

/-- True exactly on the successful fetch outcome. -/
def FetchOutcome.isOk : FetchOutcome → Bool
  | .ok _ => true
  | .failEarly => false
  | .failMid _ => false

/-- Oracle for the outside world: the outcome of each GET attempt and
whether an unguarded write to a given path succeeds. -/
structure Sys where
  net : String → Nat → FetchOutcome
  wok : String → Bool

/-- Parent directory of a path string: everything before the last slash. -/
def parentDir (s : String) : String :=
  String.mk (((s.data.reverse.dropWhile (fun c => c ≠ '/')).drop 1).reverse)

/-- Embeds `ensure_directory` (download_samples.py lines 36-38): create
the directory if it does not exist. -/
def ensure_directory (fs : FS) (d : String) : FS :=
  if d ∈ fs.dirs then fs else { fs with dirs := d :: fs.dirs }

/-! ## JSON model

`save_metadata` serializes with `json.dump(metadata, f, indent=2,
sort_keys=True)`.  The script's metadata values are exactly strings and
arrays of numeric literals (the bbox floats and the size integers);
`JValue` captures that fragment, with numbers carried as the literal
text `json.dump` prints for them.  `renderVal` reproduces Python's
`indent=2` layout, `sortKeys` its `sort_keys=True`.  The metadata
strings of this script contain no characters that JSON escapes, so the
serializer emits string bodies verbatim and the parser reads them back
verbatim. -/

/-- JSON values as used by the script's metadata sidecars: strings,
numeric literals, and arrays of numeric literals. -/
inductive JValue where
  | str (s : String)
  | num (lit : String)
  | numArr (lits : List String)
deriving Repr, DecidableEq

/-- A string of `n` spaces. -/
def nspaces (n : Nat) : String :=
  String.mk (List.replicate n ' ')

/-- Quote a JSON string (no characters needing escapes occur in this
program's metadata). -/
def jsonQuote (s : String) : String :=
  "\"" ++ s ++ "\""

/-- Render the comma-separated elements of a non-empty numeric array,
one per line at indentation `ind`. -/
def renderNums (ind : Nat) (x : String) : List String → String
  | [] => nspaces ind ++ x
  | y :: ys => nspaces ind ++ x ++ ",\n" ++ renderNums ind y ys

/-- Render a JSON value at indentation `ind`, matching Python's
`json.dump(..., indent=2)` layout. -/
def renderVal (ind : Nat) : JValue → String
  | .str s => jsonQuote s
  | .num lit => lit
  | .numArr [] => "[]"
  | .numArr (x :: xs) =>
      "[\n" ++ renderNums (ind + 2) x xs ++ "\n" ++ nspaces ind ++ "]"

/-- Render the comma-separated members of a non-empty object at
indentation `ind`. -/
def renderMembers (ind : Nat) (kv : String × JValue) : List (String × JValue) → String
  | [] => nspaces ind ++ jsonQuote kv.1 ++ ": " ++ renderVal ind kv.2
  | l :: ls =>
      nspaces ind ++ jsonQuote kv.1 ++ ": " ++ renderVal ind kv.2 ++ ",\n" ++ renderMembers ind l ls

/-- Lexicographic order on character lists by code point. -/
def listCharLe : List Char → List Char → Bool
  | [], _ => true
  | _ :: _, [] => false
  | a :: as, b :: bs =>
    if a.toNat < b.toNat then true
    else if b.toNat < a.toNat then false
    else listCharLe as bs

/-- Order on strings by Unicode code point, the order Python's `sorted`
uses on `str` keys. -/
def strLe (a b : String) : Bool := listCharLe a.data b.data

/-- Insert a key/value pair into a key-sorted association list. -/
def insertSorted (p : String × JValue) : List (String × JValue) → List (String × JValue)
  | [] => [p]
  | q :: t => if strLe p.1 q.1 then p :: q :: t else q :: insertSorted p t

/-- Sort an association list by key (Python's `sort_keys=True`). -/
def sortKeys : List (String × JValue) → List (String × JValue)
  | [] => []
  | p :: t => insertSorted p (sortKeys t)

/-- Serialize a metadata mapping the way `save_metadata` does: a JSON
object with sorted keys and two-space indentation. -/
def jsonDumpObj (kvs : List (String × JValue)) : String :=
  match sortKeys kvs with
  | [] => "\x7b\x7d"
  | kv :: rest => "\x7b\n" ++ renderMembers 2 kv rest ++ "\n\x7d"

/-- Drop leading JSON whitespace. -/
def skipWs : List Char → List Char
  | c :: t => if c = ' ' ∨ c = '\n' ∨ c = '\t' ∨ c = '\r' then skipWs t else c :: t
  | [] => []

/-- Read the body of a JSON string up to the closing quote. -/
def parseStrAux : List Char → List Char → Option (String × List Char)
  | _, [] => none
  | acc, c :: t => if c = '\"' then some (String.mk acc.reverse, t) else parseStrAux (c :: acc) t

/-- Characters that may appear in a JSON numeric literal. -/
def isNumChar (c : Char) : Bool :=
  c.isDigit || c = '-' || c = '+' || c = '.' || c = 'e' || c = 'E'

/-- Read a JSON numeric literal as its text. -/
def parseNum (cs : List Char) : Option (String × List Char) :=
  let lit := cs.takeWhile isNumChar
  if lit.isEmpty then none else some (String.mk lit, cs.drop lit.length)

/-- Parse the numeric elements of a non-empty array, after the opening
bracket (fuel-bounded). -/
def parseNumsAux : Nat → List Char → Option (List String × List Char)
  | 0, _ => none
  | fuel + 1, cs =>
    (parseNum (skipWs cs)).bind fun r =>
      match skipWs r.2 with
      | ',' :: u => (parseNumsAux fuel u).map (fun q => (r.1 :: q.1, q.2))
      | ']' :: u => some ([r.1], u)
      | _ => none

/-- Parse one JSON value of the fragment the script emits. -/
def parseFlatVal (fuel : Nat) (cs : List Char) : Option (JValue × List Char) :=
  match skipWs cs with
  | '\"' :: t => (parseStrAux [] t).map (fun r => (JValue.str r.1, r.2))
  | '[' :: t =>
    match skipWs t with
    | ']' :: u => some (JValue.numArr [], u)
    | u => (parseNumsAux fuel u).map (fun r => (JValue.numArr r.1, r.2))
  | cs' => (parseNum cs').map (fun r => (JValue.num r.1, r.2))

/-- Parse the members of a non-empty object, after the opening brace
(fuel-bounded). -/
def parseMembersAux : Nat → List Char → Option (List (String × JValue) × List Char)
  | 0, _ => none
  | fuel + 1, cs =>
    match skipWs cs with
    | '\"' :: t =>
      (parseStrAux [] t).bind fun r =>
        match skipWs r.2 with
        | ':' :: u =>
          (parseFlatVal fuel u).bind fun q =>
            match skipWs q.2 with
            | ',' :: w => (parseMembersAux fuel w).map (fun p => ((r.1, q.1) :: p.1, p.2))
            | '\x7d' :: w => some ([(r.1, q.1)], w)
            | _ => none
        | _ => none
    | _ => none

/-- Parse a complete JSON document consisting of one object. -/
def jsonParseObj (s : String) : Option (List (String × JValue)) :=
  match skipWs s.data with
  | '\x7b' :: t =>
    match skipWs t with
    | '\x7d' :: u => if (skipWs u).isEmpty then some [] else none
    | u =>
      match parseMembersAux (s.length + 1) u with
      | some (kvs, rest) => if (skipWs rest).isEmpty then some kvs else none
      | none => none
  | _ => none

/-! ## The embedded program

Each definition below mirrors a function of
`scripts/download_samples.py`; line numbers refer to that file. -/

/-- Embeds `http_download` (lines 41-53) with the timeout explicit.  The
GET attempt is recorded in the trace; any failure inside the `try`
(network, HTTP status, or I/O during the streaming write) is caught and
reported as `false` after printing a diagnostic.  A failure before the
destination is opened leaves the destination untouched; a failure after
`open(out_path, "wb")` has truncated it leaves whatever chunks were
flushed (`partialBody`).  On success the parent directory is created and
the full body written, overwriting any existing file. -/
def http_downloadT (sys : Sys) (url : String) (st : St) (outPath : String)
    (timeoutSeconds : Nat) : Bool × St :=
  let st := stGet st url timeoutSeconds
  match sys.net url timeoutSeconds with
  | .ok body =>
    let st := { st with fs := ensure_directory st.fs (parentDir outPath) }
    (true, { st with fs := fsWrite st.fs outPath body })
  | .failEarly => (false, stPrint st ("Failed to download " ++ url))
  | .failMid partialBody =>
    let st := { st with fs := ensure_directory st.fs (parentDir outPath) }
    (false, stPrint { st with fs := fsWrite st.fs outPath partialBody }
      ("Failed to download " ++ url))

/-- Embeds `http_download` called without a timeout argument: the Python
default is `timeout_seconds: int = 60`. -/
def http_download (sys : Sys) (url : String) (st : St) (outPath : String) : Bool × St :=
  http_downloadT sys url st outPath 60

/-- Embeds `save_metadata` (lines 56-59): ensure the parent directory,
then write the serialized metadata.  The write is not inside any `try`,
so a failing write raises. -/
def save_metadata (sys : Sys) (st : St) (path : String)
    (metadata : List (String × JValue)) : Except Err St :=
  let st := { st with fs := ensure_directory st.fs (parentDir path) }
  if sys.wok path then
    .ok { st with fs := fsWrite st.fs path (jsonDumpObj metadata) }
  else
    .error (.ioError path)

/-- WMS GetMap URL built by `download_worldview_sample` (lines 70-79). -/
def wmsUrl (date : String) : String :=
  "https://gibs.earthdata.nasa.gov/wms/epsg4326/best/wms.cgi" ++
  "?SERVICE=WMS&REQUEST=GetMap&VERSION=1.3.0" ++
  "&LAYERS=MODIS_Terra_CorrectedReflectance_TrueColor" ++
  "&STYLES=&FORMAT=image/png&TRANSPARENT=TRUE" ++
  "&HEIGHT=512&WIDTH=512&CRS=EPSG:4326" ++
  "&BBOX=40.4,-74.4,41.0,-73.6" ++
  "&TIME=" ++ date

/-- Metadata dict written by `download_worldview_sample` (lines 87-96). -/
def worldviewMetadata (date : String) : List (String × JValue) :=
  [("source", .str "NASA GIBS / Worldview"),
   ("layer", .str "MODIS_Terra_CorrectedReflectance_TrueColor"),
   ("projection", .str "EPSG:4326"),
   ("bbox", .numArr ["40.4", "-74.4", "41.0", "-73.6"]),
   ("size", .numArr ["512", "512"]),
   ("format", .str "image/png"),
   ("url", .str (wmsUrl date)),
   ("license", .str "Publicly available imagery via NASA GIBS; see NASA usage policies")]

/-- Embeds `download_worldview_sample` (lines 62-99) for an explicit
`date` argument. -/
def download_worldview_sampleAt (sys : Sys) (st : St) (date : String) :
    Except Err (Option String × St) :=
  let outDir := "data/worldview"
  let st := { st with fs := ensure_directory st.fs outDir }
  let outPath := outDir ++ "/worldview_truecolor_" ++ date ++ ".png"
  match http_download sys (wmsUrl date) st outPath with
  | (true, st) =>
    match save_metadata sys st (outDir ++ "/worldview_truecolor_" ++ date ++ ".json")
        (worldviewMetadata date) with
    | .ok st => .ok (some outPath, st)
    | .error e => .error e
  | (false, st) => .ok (none, st)

/-- Embeds `download_worldview_sample` called with its default date
argument `"2020-01-01"`, as `main` does. -/
def download_worldview_sample (sys : Sys) (st : St) : Except Err (Option String × St) :=
  download_worldview_sampleAt sys st "2020-01-01"

/-- Earth Observatory sample URL (lines 109-111). -/
def eoUrl : String :=
  "https://earthobservatory.nasa.gov/ContentFeature/BlueMarble/Images/land_ocean_ice_2048.jpg"

/-- Metadata dict written by `download_earth_observatory_sample`
(lines 119-124). -/
def eoMetadata : List (String × JValue) :=
  [("source", .str "NASA Earth Observatory"),
   ("title", .str "Blue Marble (sample image)"),
   ("url", .str eoUrl),
   ("license", .str "Please see NASA Earth Observatory usage guidelines")]

/-- Embeds `download_earth_observatory_sample` (lines 102-127). -/
def download_earth_observatory_sample (sys : Sys) (st : St) :
    Except Err (Option String × St) :=
  let outDir := "data/earth_observatory"
  let st := { st with fs := ensure_directory st.fs outDir }
  let outPath := outDir ++ "/sample_earth_observatory.jpg"
  match http_download sys eoUrl st outPath with
  | (true, st) =>
    match save_metadata sys st (outDir ++ "/sample_earth_observatory.json") eoMetadata with
    | .ok st => .ok (some outPath, st)
    | .error e => .error e
  | (false, st) => .ok (none, st)

/-- WRI candidate URL list (lines 141-144): a single best-effort CSV. -/
def wriCandidates : List String :=
  ["https://datasets.wri.org/dataset/8f6b2c8e-e5b6-4c5e-8b7b-21f5b7a3b0ba/resource/8f37a987-b2e0-4a11-9d53-8b0d2050b1fe/download/sample.csv"]

/-- Destination of the WRI CSV (line 147). -/
def wriCsvPath : String := "data/wri/wri_sample.csv"

/-- Destination of the WRI metadata sidecar (line 150). -/
def wriJsonPath : String := "data/wri/wri_sample.json"

/-- Destination of the WRI fallback instructions file (line 160). -/
def wriReadmePath : String := "data/wri/README.txt"

/-- Fallback instructions text (lines 162-163). -/
def wriFallbackText : String :=
  "Could not fetch a small WRI CSV automatically.\n" ++
  "Please visit https://data.wri.org/ and download a small CSV, then place it here as wri_sample.csv.\n"

/-- Metadata dict written by `download_wri_sample` on success
(lines 151-155). -/
def wriMetadata (url : String) : List (String × JValue) :=
  [("source", .str "World Resources Institute (WRI) Data Explorer"),
   ("url", .str url),
   ("notes", .str "Small sample CSV for demonstration; replace with a project-relevant dataset")]

/-- Embeds the candidate loop of `download_wri_sample` (lines 146-165):
try each URL in order, short-circuit on first success (writing the
sidecar and returning the CSV path), and when the list is exhausted
write the instructions README (an unguarded write) and return no path. -/
def wriLoop (sys : Sys) : List String → St → Except Err (Option String × St)
  | [], st =>
    if sys.wok wriReadmePath then
      .ok (none, { st with fs := fsWrite st.fs wriReadmePath wriFallbackText })
    else
      .error (.ioError wriReadmePath)
  | url :: rest, st =>
    match http_download sys url st wriCsvPath with
    | (true, st) =>
      match save_metadata sys st wriJsonPath (wriMetadata url) with
      | .ok st => .ok (some wriCsvPath, st)
      | .error e => .error e
    | (false, st) => wriLoop sys rest st

/-- Embeds `download_wri_sample` (lines 130-165). -/
def download_wri_sample (sys : Sys) (st : St) : Except Err (Option String × St) :=
  wriLoop sys wriCandidates { st with fs := ensure_directory st.fs "data/wri" }

/-- Placeholder provider folders and texts (lines 169-190), in the
iteration order of the Python dict. -/
def placeholders : List (String × String) :=
  [("sedac",
    "SEDAC datasets often require login. Create a free account at https://sedac.ciesin.columbia.edu/.\n" ++
    "Once downloaded, place a small sample file here and document it in a metadata JSON.\n"),
   ("worldpop",
    "WorldPop provides country-level population rasters. Visit https://www.worldpop.org/ to download a small country tile.\n" ++
    "Place the file here and add a metadata JSON noting the source and license.\n"),
   ("ghsl",
    "GHSL (EU Copernicus) provides population and built-up layers. Visit https://ghsl.jrc.ec.europa.eu/.\n" ++
    "Download a small tile (e.g., a small country or region) and place it here with metadata.\n"),
   ("eu_copernicus",
    "Copernicus Services Catalogue contains many datasets. Visit https://www.copernicus.eu/en/access-data/copernicus-services-catalogue.\n" ++
    "Download a small, relevant sample and document license and attribution.\n"),
   ("eotoolkit",
    "UN-Habitat Earth Observations Toolkit: https://eotoolkit.unhabitat.org/.\n" ++
    "Identify a relevant resource and place a small sample or a link with documentation here.\n")]

/-- README path for a placeholder provider folder (line 195). -/
def placeholderReadmePath (folder : String) : String :=
  "data/" ++ folder ++ "/README.txt"

/-- Embeds the loop of
`write_placeholders_for_sedac_worldpop_ghsl_copernicus_eotoolkit`
(lines 192-198): ensure the folder, then write the text only when no
README exists yet (the write, when it happens, is unguarded). -/
def placeholdersLoop (sys : Sys) : List (String × String) → St → Except Err St
  | [], st => .ok st
  | (folder, text) :: rest, st =>
    let st := { st with fs := ensure_directory st.fs ("data/" ++ folder) }
    let readmePath := placeholderReadmePath folder
    if fsExists st.fs readmePath then
      placeholdersLoop sys rest st
    else if sys.wok readmePath then
      placeholdersLoop sys rest { st with fs := fsWrite st.fs readmePath text }
    else
      .error (.ioError readmePath)

/-- Embeds
`write_placeholders_for_sedac_worldpop_ghsl_copernicus_eotoolkit`
(lines 168-198). -/
def write_placeholders_for_sedac_worldpop_ghsl_copernicus_eotoolkit
    (sys : Sys) (st : St) : Except Err St :=
  placeholdersLoop sys placeholders st

/-- Result of a run of `main`: the returned exit code, the final value
of the `successes` counter (observable in the completion line), and the
final state. -/
structure MainResult where
  exitCode : Int
  successes : Nat
  st : St
deriving Repr, DecidableEq

/-- Embeds `main` (lines 201-227; the name `main` itself is reserved in
Lean): the fixed sequence worldview fetch, earth-observatory fetch, WRI
CSV fetch, placeholder writing, counting successes and printing a status
line per step, returning 0. -/
def mainRun (sys : Sys) (st : St) : Except Err MainResult :=
  let st := stPrint st "Downloading sample datasets..."
  match download_worldview_sample sys st with
  | .error e => .error e
  | .ok (p1, st) =>
    let successes := if p1.isSome then 1 else 0
    let st := stPrint st (if p1.isSome then "- Worldview sample downloaded"
      else "- Worldview sample skipped (download failed)")
    match download_earth_observatory_sample sys st with
    | .error e => .error e
    | .ok (p2, st) =>
      let successes := if p2.isSome then successes + 1 else successes
      let st := stPrint st (if p2.isSome then "- Earth Observatory sample downloaded"
        else "- Earth Observatory sample skipped (download failed)")
      match download_wri_sample sys st with
      | .error e => .error e
      | .ok (p3, st) =>
        let successes := if p3.isSome then successes + 1 else successes
        let st := stPrint st (if p3.isSome then "- WRI sample downloaded"
          else "- WRI sample skipped (no direct small CSV found; added instructions)")
        match write_placeholders_for_sedac_worldpop_ghsl_copernicus_eotoolkit sys st with
        | .error e => .error e
        | .ok st =>
          let st := stPrint st "- Placeholders written for SEDAC, WorldPop, GHSL, Copernicus, and EO Toolkit"
          let st := stPrint st ("Completed with " ++ toString successes ++ " successful downloads")
          .ok ⟨0, successes, st⟩

/-! ## Named constants for the concrete run -/

/-- Worldview URL at the default date used by `mainRun`. -/
def wvUrl : String := wmsUrl "2020-01-01"

/-- Worldview PNG destination at the default date. -/
def wvPngPath : String := "data/worldview/worldview_truecolor_2020-01-01.png"

/-- Worldview metadata sidecar destination at the default date. -/
def wvJsonPath : String := "data/worldview/worldview_truecolor_2020-01-01.json"

/-- Earth Observatory JPEG destination. -/
def eoJpgPath : String := "data/earth_observatory/sample_earth_observatory.jpg"

/-- Earth Observatory metadata sidecar destination. -/
def eoJsonPath : String := "data/earth_observatory/sample_earth_observatory.json"

/-- The single WRI candidate URL. -/
def wriUrl0 : String :=
  "https://datasets.wri.org/dataset/8f6b2c8e-e5b6-4c5e-8b7b-21f5b7a3b0ba/resource/8f37a987-b2e0-4a11-9d53-8b0d2050b1fe/download/sample.csv"

/-- State after a successful worldview fetch. -/
def wvStOk (st : St) (b : String) : St :=
  { fs := fsWrite (ensure_directory (fsWrite (ensure_directory
      (ensure_directory st.fs "data/worldview") (parentDir wvPngPath)) wvPngPath b)
      (parentDir wvJsonPath)) wvJsonPath (jsonDumpObj (worldviewMetadata "2020-01-01")),
    output := st.output ++ [Ev.get wvUrl 60] }

/-- State after a worldview fetch that failed before the destination was
opened: no file touched. -/
def wvStFail (st : St) : St :=
  stPrint (stGet { st with fs := ensure_directory st.fs "data/worldview" } wvUrl 60)
    ("Failed to download " ++ wvUrl)

/-- State after a worldview fetch that failed mid-stream: the PNG
destination was truncated and holds the partial body. -/
def wvStFailMid (st : St) (pb : String) : St :=
  { fs := fsWrite (ensure_directory (ensure_directory st.fs "data/worldview")
      (parentDir wvPngPath)) wvPngPath pb,
    output := st.output ++ [Ev.get wvUrl 60, Ev.print ("Failed to download " ++ wvUrl)] }

/-- State after a successful Earth Observatory fetch. -/
def eoStOk (st : St) (b : String) : St :=
  { fs := fsWrite (ensure_directory (fsWrite (ensure_directory
      (ensure_directory st.fs "data/earth_observatory") (parentDir eoJpgPath)) eoJpgPath b)
      (parentDir eoJsonPath)) eoJsonPath (jsonDumpObj eoMetadata),
    output := st.output ++ [Ev.get eoUrl 60] }

/-- State after an Earth Observatory fetch that failed before the
destination was opened: no file touched. -/
def eoStFail (st : St) : St :=
  stPrint (stGet { st with fs := ensure_directory st.fs "data/earth_observatory" } eoUrl 60)
    ("Failed to download " ++ eoUrl)

/-- State after an Earth Observatory fetch that failed mid-stream: the
JPEG destination was truncated and holds the partial body. -/
def eoStFailMid (st : St) (pb : String) : St :=
  { fs := fsWrite (ensure_directory (ensure_directory st.fs "data/earth_observatory")
      (parentDir eoJpgPath)) eoJpgPath pb,
    output := st.output ++ [Ev.get eoUrl 60, Ev.print ("Failed to download " ++ eoUrl)] }

/-- State after a successful WRI fetch of the single candidate. -/
def wriStOk (st : St) (b : String) : St :=
  { fs := fsWrite (ensure_directory (fsWrite (ensure_directory
      (ensure_directory st.fs "data/wri") (parentDir wriCsvPath)) wriCsvPath b)
      (parentDir wriJsonPath)) wriJsonPath (jsonDumpObj (wriMetadata wriUrl0)),
    output := st.output ++ [Ev.get wriUrl0 60] }

/-- State after the single WRI candidate failed before its destination
was opened: the fallback README has been written, nothing else. -/
def wriStFail (st : St) : St :=
  { fs := fsWrite (ensure_directory st.fs "data/wri") wriReadmePath wriFallbackText,
    output := st.output ++ [Ev.get wriUrl0 60, Ev.print ("Failed to download " ++ wriUrl0)] }

/-- State after the single WRI candidate failed mid-stream: the CSV
destination holds the partial body and the fallback README has been
written. -/
def wriStFailMid (st : St) (pb : String) : St :=
  { fs := fsWrite (fsWrite (ensure_directory (ensure_directory st.fs "data/wri")
      (parentDir wriCsvPath)) wriCsvPath pb) wriReadmePath wriFallbackText,
    output := st.output ++ [Ev.get wriUrl0 60, Ev.print ("Failed to download " ++ wriUrl0)] }

/-- Candidate URLs the WRI loop attempts under oracle `sys`: the failing
prefix of the list followed by the first succeeding candidate, if any.
This is the specification of "strictly in listed order with first-success
short-circuit". -/
def wriTried (sys : Sys) (cands : List String) : List String :=
  let pre := cands.takeWhile (fun u => !(sys.net u 60).isOk)
  pre ++ (cands.drop pre.length).take 1

/-- Deterministic mirror of `placeholdersLoop`: under an oracle whose
writes all succeed, the loop cannot raise, and this function computes
its result state. -/
def placeholdersRun : List (String × String) → St → St
  | [], st => st
  | (folder, text) :: rest, st =>
    let st := { st with fs := ensure_directory st.fs ("data/" ++ folder) }
    if fsExists st.fs (placeholderReadmePath folder) then
      placeholdersRun rest st
    else
      placeholdersRun rest { st with fs := fsWrite st.fs (placeholderReadmePath folder) text }

/-! ## Well-formedness of metadata sidecars -/

/-- The opening brace character. -/
def lbrace : Char := Char.ofNat 123

/-- The closing brace character. -/
def rbrace : Char := Char.ofNat 125

/-- Split a character list at newlines. -/
def splitLines : List Char → List (List Char)
  | [] => [[]]
  | c :: t =>
    if c = '\n' then [] :: splitLines t
    else
      match splitLines t with
      | [] => [[c]]
      | l :: ls => (c :: l) :: ls

/-- Every line of the document is an outer brace or starts with (at
least) the two-space indentation unit. -/
def twoSpaceIndented (c : String) : Bool :=
  (splitLines c.data).all
    (fun line => line = [lbrace] || line = [rbrace] || line.take 2 = [' ', ' '])

/-- The keys of an association list are in ascending `strLe` order. -/
def keysSortedB : List (String × JValue) → Bool
  | [] => true
  | [_] => true
  | a :: b :: t => strLe a.1 b.1 && keysSortedB (b :: t)

/-- The given optional value is a non-empty JSON string. -/
def isNonemptyStr : Option JValue → Bool
  | some (.str s) => !(s == "")
  | _ => false

/-- A metadata sidecar document is well formed when it parses back to a
mapping with sorted keys and two-space indentation whose `source` and
`url` entries are non-empty strings. -/
def metadataDocOk (c : String) : Bool :=
  match jsonParseObj c with
  | none => false
  | some kvs =>
    twoSpaceIndented c && keysSortedB kvs &&
    isNonemptyStr (kvs.lookup "source") && isNonemptyStr (kvs.lookup "url")

/-! ## Concrete oracles and states used to exhibit witnesses -/

/-- Oracle whose every fetch succeeds with body `"BODY"` and whose every
write succeeds. -/
def sysAllOk : Sys := ⟨fun _ _ => .ok "BODY", fun _ => true⟩

/-- Oracle whose every fetch fails before opening its destination and
whose every write succeeds. -/
def sysAllFail : Sys := ⟨fun _ _ => .failEarly, fun _ => true⟩

/-- Oracle whose every fetch fails mid-stream, leaving the partial body
`"PART"` at the truncated destination; every write succeeds. -/
def sysMidFail : Sys := ⟨fun _ _ => .failMid "PART", fun _ => true⟩

/-- Oracle under which every fetch succeeds but the unguarded write of
the worldview metadata sidecar fails. -/
def sysWvJsonWriteFails : Sys :=
  ⟨fun _ _ => .ok "BODY",
   fun p => !(p == "data/worldview/worldview_truecolor_2020-01-01.json")⟩

/-- Oracle under which exactly the URL `"u2"` succeeds; every other
fetch fails early. -/
def sysSecondOk : Sys :=
  ⟨fun u _ => if u = "u2" then .ok "CSV" else .failEarly, fun _ => true⟩

/-- State holding one pre-existing WRI instructions file with old
content. -/
def stOldWriReadme : St := ⟨⟨[("data/wri/README.txt", "OLD CONTENT")], []⟩, []⟩

/-! ## Theorems -/

/-- Worldview orchestrator, successful fetch. -/
theorem download_worldview_sample_ok (sys : Sys) (st : St) (b : String)
    (hnet : sys.net wvUrl 60 = .ok b) (h2 : sys.wok wvJsonPath = true) :
    download_worldview_sample sys st = .ok (some wvPngPath, wvStOk st b) := by
  unfold download_worldview_sample download_worldview_sampleAt http_download http_downloadT
    save_metadata
  rw [show wmsUrl "2020-01-01" = wvUrl from rfl]
  rw [hnet]
  simp only [show ("data/worldview" ++ "/worldview_truecolor_" ++ "2020-01-01" ++ ".png") =
      wvPngPath from rfl,
    show ("data/worldview" ++ "/worldview_truecolor_" ++ "2020-01-01" ++ ".json") =
      wvJsonPath from rfl, h2, if_true]
  rfl

/-- Worldview orchestrator, early-failed fetch: no file touched. -/
theorem download_worldview_sample_fail (sys : Sys) (st : St)
    (hnet : sys.net wvUrl 60 = .failEarly) :
    download_worldview_sample sys st = .ok (none, wvStFail st) := by
  unfold download_worldview_sample download_worldview_sampleAt http_download http_downloadT
  rw [show wmsUrl "2020-01-01" = wvUrl from rfl]
  rw [hnet]
  rfl

/-- Worldview orchestrator, mid-stream-failed fetch: the PNG destination
holds the partial body. -/
theorem download_worldview_sample_failMid (sys : Sys) (st : St) (pb : String)
    (hnet : sys.net wvUrl 60 = .failMid pb) :
    download_worldview_sample sys st = .ok (none, wvStFailMid st pb) := by
  unfold download_worldview_sample download_worldview_sampleAt http_download http_downloadT
  rw [show wmsUrl "2020-01-01" = wvUrl from rfl]
  rw [hnet]
  simp only [show ("data/worldview" ++ "/worldview_truecolor_" ++ "2020-01-01" ++ ".png") =
      wvPngPath from rfl]
  simp [wvStFailMid, stPrint, stGet, List.append_assoc]

/-- Earth Observatory orchestrator, successful fetch. -/
theorem download_earth_observatory_sample_ok (sys : Sys) (st : St) (b : String)
    (hnet : sys.net eoUrl 60 = .ok b) (h2 : sys.wok eoJsonPath = true) :
    download_earth_observatory_sample sys st = .ok (some eoJpgPath, eoStOk st b) := by
  unfold download_earth_observatory_sample http_download http_downloadT save_metadata
  rw [hnet]
  simp only [show ("data/earth_observatory" ++ "/sample_earth_observatory.jpg") =
      eoJpgPath from rfl,
    show ("data/earth_observatory" ++ "/sample_earth_observatory.json") =
      eoJsonPath from rfl, h2, if_true]
  rfl

/-- Earth Observatory orchestrator, early-failed fetch: no file
touched. -/
theorem download_earth_observatory_sample_fail (sys : Sys) (st : St)
    (hnet : sys.net eoUrl 60 = .failEarly) :
    download_earth_observatory_sample sys st = .ok (none, eoStFail st) := by
  unfold download_earth_observatory_sample http_download http_downloadT
  rw [hnet]
  rfl

/-- Earth Observatory orchestrator, mid-stream-failed fetch: the JPEG
destination holds the partial body. -/
theorem download_earth_observatory_sample_failMid (sys : Sys) (st : St) (pb : String)
    (hnet : sys.net eoUrl 60 = .failMid pb) :
    download_earth_observatory_sample sys st = .ok (none, eoStFailMid st pb) := by
  unfold download_earth_observatory_sample http_download http_downloadT
  rw [hnet]
  simp only [show ("data/earth_observatory" ++ "/sample_earth_observatory.jpg") =
      eoJpgPath from rfl]
  simp [eoStFailMid, stPrint, stGet, List.append_assoc]

/-! ## Basic facts about the state model -/

/-- Writing at `p` makes `p` readable with the new content. -/
@[simp] theorem fsLookup_fsWrite_self (fs : FS) (p c : String) :
    fsLookup (fsWrite fs p c) p = some c := by
  simp [fsLookup, fsWrite, List.lookup]

/-- Writing at `q` leaves every other path unchanged. -/
@[simp] theorem fsLookup_fsWrite_ne (fs : FS) (p q c : String) (h : p ≠ q) :
    fsLookup (fsWrite fs q c) p = fsLookup fs p := by
  have hb : (p == q) = false := beq_eq_false_iff_ne.mpr h
  simp [fsLookup, fsWrite, List.lookup, hb]

/-- Creating a directory touches no file. -/
@[simp] theorem fsLookup_ensure_directory (fs : FS) (d p : String) :
    fsLookup (ensure_directory fs d) p = fsLookup fs p := by
  unfold ensure_directory
  split <;> rfl

/-- Creating a directory leaves the file list unchanged. -/
@[simp] theorem ensure_directory_files (fs : FS) (d : String) :
    (ensure_directory fs d).files = fs.files := by
  unfold ensure_directory
  split <;> rfl

/-- The created directory is present afterwards. -/
theorem mem_ensure_directory_dirs (fs : FS) (d : String) :
    d ∈ (ensure_directory fs d).dirs := by
  unfold ensure_directory
  split
  · assumption
  · exact List.mem_cons_self d fs.dirs

/-- Recording a GET attempt leaves the filesystem unchanged. -/
@[simp] theorem stGet_fs (st : St) (url : String) (t : Nat) : (stGet st url t).fs = st.fs := rfl

/-- Printing a line leaves the filesystem unchanged. -/
@[simp] theorem stPrint_fs (st : St) (s : String) : (stPrint st s).fs = st.fs := rfl

/-- Recording a GET attempt appends one event. -/
@[simp] theorem stGet_output (st : St) (url : String) (t : Nat) :
    (stGet st url t).output = st.output ++ [Ev.get url t] := rfl

/-- Printing a line appends one event. -/
@[simp] theorem stPrint_output (st : St) (s : String) :
    (stPrint st s).output = st.output ++ [Ev.print s] := rfl

/-- The WRI candidate list is that single URL. -/
theorem wriCandidates_eq : wriCandidates = [wriUrl0] := rfl

/-! ## Exact-shape lemmas for the orchestrators

Each lemma computes one orchestrator's result, for each network
outcome, assuming the unguarded writes it performs succeed.  The final
states are written out explicitly so that runs of `mainRun` compose by
rewriting. -/

/-- WRI orchestrator, successful fetch of the single candidate. -/
theorem download_wri_sample_ok (sys : Sys) (st : St) (b : String)
    (hnet : sys.net wriUrl0 60 = .ok b) (h2 : sys.wok wriJsonPath = true) :
    download_wri_sample sys st = .ok (some wriCsvPath, wriStOk st b) := by
  unfold download_wri_sample
  rw [wriCandidates_eq]
  simp only [wriLoop, http_download, http_downloadT, save_metadata, hnet, h2, if_true]
  rfl

/-- WRI orchestrator, early-failed fetch of the single candidate: only
the fallback README is written. -/
theorem download_wri_sample_fail (sys : Sys) (st : St)
    (hnet : sys.net wriUrl0 60 = .failEarly) (h1 : sys.wok wriReadmePath = true) :
    download_wri_sample sys st = .ok (none, wriStFail st) := by
  unfold download_wri_sample
  rw [wriCandidates_eq]
  simp only [wriLoop, http_download, http_downloadT, hnet, h1, if_true]
  simp [wriStFail, stPrint, stGet, List.append_assoc]

/-- WRI orchestrator, mid-stream-failed fetch of the single candidate:
the CSV destination holds the partial body and the fallback README is
written. -/
theorem download_wri_sample_failMid (sys : Sys) (st : St) (pb : String)
    (hnet : sys.net wriUrl0 60 = .failMid pb) (h1 : sys.wok wriReadmePath = true) :
    download_wri_sample sys st = .ok (none, wriStFailMid st pb) := by
  unfold download_wri_sample
  rw [wriCandidates_eq]
  simp only [wriLoop, http_download, http_downloadT, hnet, h1, if_true]
  simp [wriStFailMid, stPrint, stGet, List.append_assoc]

/-! ## The placeholder loop

`placeholdersLoop_spec` collects everything later proofs need about one
run of the placeholder step, for an arbitrary provider list: it
succeeds, prints nothing, touches no path other than the providers'
README paths, never changes an existing file, leaves every provider's
README in existence, and (for pairwise-distinct README paths) writes
exactly the provider's text where none existed. -/
theorem placeholdersLoop_spec (sys : Sys) (hw : ∀ p, sys.wok p = true) :
    ∀ (l : List (String × String)) (st : St),
    ∃ st', placeholdersLoop sys l st = .ok st' ∧
      st'.output = st.output ∧
      (∀ p, (∀ kv ∈ l, p ≠ placeholderReadmePath kv.1) → fsLookup st'.fs p = fsLookup st.fs p) ∧
      (∀ p c, fsLookup st.fs p = some c → fsLookup st'.fs p = some c) ∧
      (∀ kv ∈ l, (fsLookup st'.fs (placeholderReadmePath kv.1)).isSome = true) ∧
      (l.Pairwise (fun a b => placeholderReadmePath a.1 ≠ placeholderReadmePath b.1) →
        ∀ kv ∈ l, fsLookup st.fs (placeholderReadmePath kv.1) = none →
          fsLookup st'.fs (placeholderReadmePath kv.1) = some kv.2) := by
  intro l
  induction l with
  | nil =>
    intro st
    exact ⟨st, rfl, rfl, fun p _ => rfl, fun p c h => h, by simp, by simp⟩
  | cons kv rest ih =>
    intro st
    obtain ⟨f, t⟩ := kv
    by_cases hex : fsExists (ensure_directory st.fs ("data/" ++ f)) (placeholderReadmePath f) = true
    · -- README already exists: no write, recurse
      obtain ⟨st', hrun, hout, hframe, hpres, hsome, habs⟩ :=
        ih { st with fs := ensure_directory st.fs ("data/" ++ f) }
      refine ⟨st', ?_, hout, ?_, ?_, ?_, ?_⟩
      · simpa [placeholdersLoop, hex] using hrun
      · intro p hp
        rw [hframe p (fun kv hkv => hp kv (List.mem_cons_of_mem _ hkv))]
        simp
      · intro p c hc
        exact hpres p c (by simpa using hc)
      · intro kv hkv
        rcases List.mem_cons.mp hkv with h | h
        · subst h
          have : fsLookup st.fs (placeholderReadmePath f) ≠ none := by
            intro hnone
            rw [show fsExists (ensure_directory st.fs ("data/" ++ f)) (placeholderReadmePath f)
              = (fsLookup st.fs (placeholderReadmePath f)).isSome from by
                simp [fsExists]] at hex
            rw [hnone] at hex
            simp at hex
          obtain ⟨c, hc⟩ := Option.ne_none_iff_exists'.mp this
          have := hpres (placeholderReadmePath f) c (by simpa using hc)
          simp [this]
        · exact hsome kv h
      · intro hpw kv hkv hnone
        have hpw' := (List.pairwise_cons.mp hpw).2
        have hne := (List.pairwise_cons.mp hpw).1
        rcases List.mem_cons.mp hkv with h | h
        · subst h
          exfalso
          have : fsExists (ensure_directory st.fs ("data/" ++ f)) (placeholderReadmePath f)
              = (fsLookup st.fs (placeholderReadmePath f)).isSome := by simp [fsExists]
          rw [this, hnone] at hex
          simp at hex
        · exact habs hpw' kv h (by simpa using hnone)
    · -- README absent: write it, recurse
      have hex' : fsExists (ensure_directory st.fs ("data/" ++ f)) (placeholderReadmePath f) = false :=
        by simpa using hex
      obtain ⟨st', hrun, hout, hframe, hpres, hsome, habs⟩ :=
        ih { st with fs := fsWrite (ensure_directory st.fs ("data/" ++ f)) (placeholderReadmePath f) t }
      have hnone0 : fsLookup st.fs (placeholderReadmePath f) = none := by
        have : fsExists (ensure_directory st.fs ("data/" ++ f)) (placeholderReadmePath f)
            = (fsLookup st.fs (placeholderReadmePath f)).isSome := by simp [fsExists]
        rw [this] at hex'
        exact Option.not_isSome_iff_eq_none.mp (by simp [hex'])
      refine ⟨st', ?_, hout, ?_, ?_, ?_, ?_⟩
      · simpa [placeholdersLoop, hex', hw] using hrun
      · intro p hp
        have hp0 : p ≠ placeholderReadmePath f := hp (f, t) (List.mem_cons_self _ _)
        rw [hframe p (fun kv hkv => hp kv (List.mem_cons_of_mem _ hkv))]
        simp [hp0]
      · intro p c hc
        have hp0 : p ≠ placeholderReadmePath f := by
          intro he
          rw [he, hnone0] at hc
          exact Option.noConfusion hc
        exact hpres p c (by simp [hp0, hc])
      · intro kv hkv
        rcases List.mem_cons.mp hkv with h | h
        · subst h
          have := hpres (placeholderReadmePath f) t (by simp)
          simp [this]
        · exact hsome kv h
      · intro hpw kv hkv hnone
        have hpw' := (List.pairwise_cons.mp hpw).2
        have hne := (List.pairwise_cons.mp hpw).1
        rcases List.mem_cons.mp hkv with h | h
        · subst h
          exact hpres (placeholderReadmePath f) t (by simp)
        · have hne' : placeholderReadmePath kv.1 ≠ placeholderReadmePath f :=
            fun he => (hne kv h) he.symm
          exact habs hpw' kv h (by simp [hne', hnone])

/-! ## The WRI candidate loop -/

/-- Nothing is attempted on an empty candidate list. -/
theorem wriTried_nil (sys : Sys) : wriTried sys [] = [] := rfl

/-- When the first candidate succeeds, it is the only one attempted. -/
theorem wriTried_cons_ok (sys : Sys) (u : String) (rest : List String) (b : String)
    (h : sys.net u 60 = .ok b) : wriTried sys (u :: rest) = [u] := by
  simp [wriTried, List.takeWhile, h, FetchOutcome.isOk]

/-- When the first candidate fails (in either mode), the remaining ones
follow it. -/
theorem wriTried_cons_fail (sys : Sys) (u : String) (rest : List String)
    (h : (sys.net u 60).isOk = false) : wriTried sys (u :: rest) = u :: wriTried sys rest := by
  simp [wriTried, List.takeWhile, h]

/-- Any failed fetch (early or mid-stream) returns `false` after exactly
one GET and a diagnostic, and touches no path other than the
destination. -/
theorem http_downloadT_fail (sys : Sys) (u : String) (st : St) (out : String) (t : Nat)
    (h : (sys.net u t).isOk = false) :
    ∃ stf, http_downloadT sys u st out t = (false, stf) ∧
      stf.output = st.output ++ [Ev.get u t, Ev.print ("Failed to download " ++ u)] ∧
      (∀ p, p ≠ out → fsLookup stf.fs p = fsLookup st.fs p) := by
  rcases hb : sys.net u t with b | _ | pb
  · rw [hb] at h
    exact absurd h (by simp [FetchOutcome.isOk])
  · refine ⟨stPrint (stGet st u t) ("Failed to download " ++ u), ?_, ?_, ?_⟩
    · simp only [http_downloadT, hb]
    · simp [stGet, stPrint, List.append_assoc]
    · intro p _
      simp
  · refine ⟨stPrint (St.mk (fsWrite (ensure_directory st.fs (parentDir out)) out pb)
        (st.output ++ [Ev.get u t])) ("Failed to download " ++ u), ?_, ?_, ?_⟩
    · simp only [http_downloadT, hb]
      rfl
    · simp [stPrint, List.append_assoc]
    · intro p hp
      simp [hp]

/-- Behaviour of the WRI candidate loop for an arbitrary candidate list,
when unguarded writes succeed: it returns without raising; its GET
attempts are exactly `wriTried sys cands` in order; it returns the CSV
path exactly when some candidate succeeds; on total failure it has
written the fallback README; and on success it has left the README path
untouched. -/
theorem wriLoop_spec (sys : Sys) (hw : ∀ p, sys.wok p = true) :
    ∀ (cands : List String) (st : St),
    ∃ res st', wriLoop sys cands st = .ok (res, st') ∧
      st'.output.filter Ev.isGet =
        st.output.filter Ev.isGet ++ (wriTried sys cands).map (fun u => Ev.get u 60) ∧
      (res.isSome = true ↔ ∃ u ∈ cands, (sys.net u 60).isOk = true) ∧
      (res ≠ none → res = some wriCsvPath) ∧
      ((∀ u ∈ cands, (sys.net u 60).isOk = false) →
        res = none ∧ fsLookup st'.fs wriReadmePath = some wriFallbackText) ∧
      ((∃ u ∈ cands, (sys.net u 60).isOk = true) →
        fsLookup st'.fs wriReadmePath = fsLookup st.fs wriReadmePath) := by
  intro cands
  induction cands with
  | nil =>
    intro st
    refine ⟨none, { st with fs := fsWrite st.fs wriReadmePath wriFallbackText },
      ?_, ?_, ?_, ?_, ?_, ?_⟩
    · simp [wriLoop, hw]
    · simp [wriTried_nil]
    · simp
    · intro h; exact absurd rfl h
    · intro _; exact ⟨rfl, by simp⟩
    · intro h; simp at h
  | cons u rest ih =>
    intro st
    by_cases hnet : (sys.net u 60).isOk = true
    · obtain ⟨b, hb⟩ : ∃ b, sys.net u 60 = .ok b := by
        rcases hh : sys.net u 60 with b | _ | pb
        · exact ⟨b, rfl⟩
        · rw [hh] at hnet
          exact absurd hnet (by simp [FetchOutcome.isOk])
        · rw [hh] at hnet
          exact absurd hnet (by simp [FetchOutcome.isOk])
      refine ⟨some wriCsvPath,
        { fs := fsWrite (ensure_directory (fsWrite (ensure_directory st.fs
            (parentDir wriCsvPath)) wriCsvPath b) (parentDir wriJsonPath)) wriJsonPath
            (jsonDumpObj (wriMetadata u)),
          output := st.output ++ [Ev.get u 60] }, ?_, ?_, ?_, ?_, ?_, ?_⟩
      · simp only [wriLoop, http_download, http_downloadT, save_metadata, hb, hw, if_true]
        rfl
      · simp [wriTried_cons_ok sys u rest b hb, stGet, Ev.isGet, List.filter_append]
      · simp
        exact Or.inl hnet
      · intro _; rfl
      · intro hall
        have := hall u (List.mem_cons_self _ _)
        rw [hb] at this
        exact absurd this (by simp [FetchOutcome.isOk])
      · intro _
        rw [fsLookup_fsWrite_ne _ _ _ _ (by decide)]
        rw [fsLookup_ensure_directory]
        rw [fsLookup_fsWrite_ne _ _ _ _ (by decide)]
        simp
    · have hnet' : (sys.net u 60).isOk = false := by simpa using hnet
      obtain ⟨stf, hhd, hout, hfr⟩ := http_downloadT_fail sys u st wriCsvPath 60 hnet'
      obtain ⟨res, st', hrun, hgets, hiff, hsome, hall, hex⟩ := ih stf
      refine ⟨res, st', ?_, ?_, ?_, hsome, ?_, ?_⟩
      · have hstep : wriLoop sys (u :: rest) st = wriLoop sys rest stf := by
          simp only [wriLoop, http_download, hhd]
        rw [hstep]
        exact hrun
      · rw [hgets, hout, wriTried_cons_fail sys u rest hnet']
        simp [Ev.isGet, List.filter_append]
      · rw [hiff]
        constructor
        · rintro ⟨v, hv, hvs⟩
          exact ⟨v, List.mem_cons_of_mem _ hv, hvs⟩
        · rintro ⟨v, hv, hvs⟩
          rcases List.mem_cons.mp hv with h | h
          · subst h; exact absurd hvs hnet
          · exact ⟨v, h, hvs⟩
      · intro hallc
        exact hall (fun v hv => hallc v (List.mem_cons_of_mem _ hv))
      · intro hexc
        obtain ⟨v, hv, hvs⟩ := hexc
        rcases List.mem_cons.mp hv with h | h
        · subst h; exact absurd hvs hnet
        · rw [hex ⟨v, h, hvs⟩]
          exact hfr wriReadmePath (by decide)

/-- Under all-succeeding writes the placeholder loop returns
`placeholdersRun`. -/
theorem placeholdersLoop_eq_run (sys : Sys) (hw : ∀ p, sys.wok p = true) :
    ∀ (l : List (String × String)) (st : St),
    placeholdersLoop sys l st = .ok (placeholdersRun l st) := by
  intro l
  induction l with
  | nil => intro st; rfl
  | cons kv rest ih =>
    intro st
    obtain ⟨f, t⟩ := kv
    by_cases hex : fsExists (ensure_directory st.fs ("data/" ++ f)) (placeholderReadmePath f) = true
    · simp [placeholdersLoop, placeholdersRun, hex, ih]
    · simp only [Bool.not_eq_true] at hex
      simp [placeholdersLoop, placeholdersRun, hex, hw, ih]

/-- The placeholder step prints nothing. -/
@[simp] theorem placeholdersRun_output : ∀ (l : List (String × String)) (st : St),
    (placeholdersRun l st).output = st.output := by
  intro l
  induction l with
  | nil => intro st; rfl
  | cons kv rest ih =>
    intro st
    obtain ⟨f, t⟩ := kv
    by_cases hex : fsExists (ensure_directory st.fs ("data/" ++ f)) (placeholderReadmePath f) = true
    · simp [placeholdersRun, hex, ih]
    · simp only [Bool.not_eq_true] at hex
      simp [placeholdersRun, hex, ih]

/-- Facts about one placeholder run (transferred from
`placeholdersLoop_spec`): it touches no path other than README paths,
never changes an existing file, leaves every provider's README in
existence, and for pairwise-distinct README paths writes exactly the
provider's text where none existed. -/
theorem placeholdersRun_spec (l : List (String × String)) (st : St) :
    (∀ p, (∀ kv ∈ l, p ≠ placeholderReadmePath kv.1) →
      fsLookup (placeholdersRun l st).fs p = fsLookup st.fs p) ∧
    (∀ p c, fsLookup st.fs p = some c → fsLookup (placeholdersRun l st).fs p = some c) ∧
    (∀ kv ∈ l, (fsLookup (placeholdersRun l st).fs (placeholderReadmePath kv.1)).isSome = true) ∧
    (l.Pairwise (fun a b => placeholderReadmePath a.1 ≠ placeholderReadmePath b.1) →
      ∀ kv ∈ l, fsLookup st.fs (placeholderReadmePath kv.1) = none →
        fsLookup (placeholdersRun l st).fs (placeholderReadmePath kv.1) = some kv.2) := by
  obtain ⟨st', hrun, _, hframe, hpres, hsome, habs⟩ :=
    placeholdersLoop_spec ⟨fun _ _ => .failEarly, fun _ => true⟩ (fun _ => rfl) l st
  rw [placeholdersLoop_eq_run ⟨fun _ _ => .failEarly, fun _ => true⟩ (fun _ => rfl) l st] at hrun
  have hst : st' = placeholdersRun l st := by
    cases hrun
    rfl
  subst hst
  exact ⟨hframe, hpres, hsome, habs⟩

set_option maxRecDepth 100000

/-- The worldview sidecar, as serialized, round-trips to its key-sorted
mapping. -/
theorem wv_sidecar_roundtrip :
    jsonParseObj (jsonDumpObj (worldviewMetadata "2020-01-01")) =
      some (sortKeys (worldviewMetadata "2020-01-01")) := by decide

/-- The Earth Observatory sidecar, as serialized, round-trips to its
key-sorted mapping. -/
theorem eo_sidecar_roundtrip :
    jsonParseObj (jsonDumpObj eoMetadata) = some (sortKeys eoMetadata) := by decide

/-- The WRI sidecar, as serialized, round-trips to its key-sorted
mapping. -/
theorem wri_sidecar_roundtrip :
    jsonParseObj (jsonDumpObj (wriMetadata wriUrl0)) =
      some (sortKeys (wriMetadata wriUrl0)) := by decide

/-- The worldview sidecar document is well formed. -/
theorem wv_sidecar_ok : metadataDocOk (jsonDumpObj (worldviewMetadata "2020-01-01")) = true := by
  decide

/-- The Earth Observatory sidecar document is well formed. -/
theorem eo_sidecar_ok : metadataDocOk (jsonDumpObj eoMetadata) = true := by decide

/-- The WRI sidecar document is well formed. -/
theorem wri_sidecar_ok : metadataDocOk (jsonDumpObj (wriMetadata wriUrl0)) = true := by decide

/-- The placeholder step never touches the worldview sidecar path. -/
theorem ph_frame_wvJson (s : St) :
    fsLookup (placeholdersRun placeholders s).fs
      "data/worldview/worldview_truecolor_2020-01-01.json" =
    fsLookup s.fs "data/worldview/worldview_truecolor_2020-01-01.json" :=
  (placeholdersRun_spec placeholders s).1 _ (by decide)

/-- The placeholder step never touches the Earth Observatory sidecar path. -/
theorem ph_frame_eoJson (s : St) :
    fsLookup (placeholdersRun placeholders s).fs
      "data/earth_observatory/sample_earth_observatory.json" =
    fsLookup s.fs "data/earth_observatory/sample_earth_observatory.json" :=
  (placeholdersRun_spec placeholders s).1 _ (by decide)

/-- The placeholder step never touches the WRI sidecar path. -/
theorem ph_frame_wriJson (s : St) :
    fsLookup (placeholdersRun placeholders s).fs "data/wri/wri_sample.json" =
    fsLookup s.fs "data/wri/wri_sample.json" :=
  (placeholdersRun_spec placeholders s).1 _ (by decide)

set_option maxHeartbeats 1000000

/-- Closed-outcome description of one run of `mainRun` when all
unguarded writes succeed: it returns exit code 0, the success counter
equals the number of succeeding network fetches, the GET attempts are
exactly the three source URLs in driver order, every provider README
exists afterwards, the run ends by printing the success count, and each
sidecar path either is untouched or holds its serialized metadata. -/
theorem mainRun_ok (sys : Sys) (st : St) (hw : ∀ p, sys.wok p = true) :
    ∃ r : MainResult, mainRun sys st = .ok r ∧
      r.exitCode = 0 ∧
      r.successes = (sys.net wvUrl 60).isOk.toNat + (sys.net eoUrl 60).isOk.toNat +
        (sys.net wriUrl0 60).isOk.toNat ∧
      r.st.output.filter Ev.isGet = st.output.filter Ev.isGet ++
        [Ev.get wvUrl 60, Ev.get eoUrl 60, Ev.get wriUrl0 60] ∧
      (∀ kv ∈ placeholders, (fsLookup r.st.fs (placeholderReadmePath kv.1)).isSome = true) ∧
      r.st.output.getLast? = some (.print ("Completed with " ++ toString r.successes ++
        " successful downloads")) ∧
      (fsLookup r.st.fs wvJsonPath = fsLookup st.fs wvJsonPath ∨
        fsLookup r.st.fs wvJsonPath = some (jsonDumpObj (worldviewMetadata "2020-01-01"))) ∧
      (fsLookup r.st.fs eoJsonPath = fsLookup st.fs eoJsonPath ∨
        fsLookup r.st.fs eoJsonPath = some (jsonDumpObj eoMetadata)) ∧
      (fsLookup r.st.fs wriJsonPath = fsLookup st.fs wriJsonPath ∨
        fsLookup r.st.fs wriJsonPath = some (jsonDumpObj (wriMetadata wriUrl0))) := by
  rcases h1 : sys.net wvUrl 60 with b1 | _ | p1 <;>
    rcases h2 : sys.net eoUrl 60 with b2 | _ | p2 <;>
      rcases h3 : sys.net wriUrl0 60 with b3 | _ | p3 <;>
  · simp only [mainRun]
    first
      | rw [download_worldview_sample_ok sys _ b1 h1 (hw _)]
      | rw [download_worldview_sample_fail sys _ h1]
      | rw [download_worldview_sample_failMid sys _ p1 h1]
    dsimp only
    first
      | rw [download_earth_observatory_sample_ok sys _ b2 h2 (hw _)]
      | rw [download_earth_observatory_sample_fail sys _ h2]
      | rw [download_earth_observatory_sample_failMid sys _ p2 h2]
    dsimp only
    first
      | rw [download_wri_sample_ok sys _ b3 h3 (hw _)]
      | rw [download_wri_sample_fail sys _ h3 (hw _)]
      | rw [download_wri_sample_failMid sys _ p3 h3 (hw _)]
    dsimp only
    rw [write_placeholders_for_sedac_worldpop_ghsl_copernicus_eotoolkit,
      placeholdersLoop_eq_run sys hw]
    dsimp only
    refine ⟨_, rfl, rfl, ?hsucc, ?hgets, ?hph, ?hlast, ?hwv, ?heo, ?hwri⟩
    case hsucc => simp [FetchOutcome.isOk]
    case hgets =>
      simp only [wvStOk, wvStFail, wvStFailMid, eoStOk, eoStFail, eoStFailMid, wriStOk,
        wriStFail, wriStFailMid, stPrint, stGet, placeholdersRun_output, stPrint_output,
        stGet_output, List.append_assoc, List.cons_append, List.nil_append]
      rw [List.filter_append]
      rfl
    case hph =>
      simp only [stPrint_fs]
      exact fun kv hkv => (placeholdersRun_spec _ _).2.2.1 kv hkv
    case hlast =>
      simp only [wvStOk, wvStFail, wvStFailMid, eoStOk, eoStFail, eoStFailMid, wriStOk,
        wriStFail, wriStFailMid, stPrint, stGet, placeholdersRun_output, stGet_output,
        stPrint_output, List.append_assoc, List.cons_append, List.nil_append,
        List.getLast?_append_cons]
      rfl
    case hwv =>
      simp only [wvStOk, wvStFail, wvStFailMid, eoStOk, eoStFail, eoStFailMid, wriStOk,
        wriStFail, wriStFailMid, stPrint, stGet, stPrint_fs, stGet_fs, wvJsonPath,
        wvPngPath, eoJsonPath, eoJpgPath, wriJsonPath, wriCsvPath, wriReadmePath]
      rw [ph_frame_wvJson]
      first
      | (refine Or.inl ?_
         simp only [fsLookup_fsWrite_ne, fsLookup_ensure_directory, ne_eq,
           not_false_eq_true, String.reduceEq]
         done)
      | (refine Or.inr ?_
         simp only [fsLookup_fsWrite_self, fsLookup_fsWrite_ne, fsLookup_ensure_directory,
           ne_eq, not_false_eq_true, String.reduceEq]
         done)
    case heo =>
      simp only [wvStOk, wvStFail, wvStFailMid, eoStOk, eoStFail, eoStFailMid, wriStOk,
        wriStFail, wriStFailMid, stPrint, stGet, stPrint_fs, stGet_fs, wvJsonPath,
        wvPngPath, eoJsonPath, eoJpgPath, wriJsonPath, wriCsvPath, wriReadmePath]
      rw [ph_frame_eoJson]
      first
      | (refine Or.inl ?_
         simp only [fsLookup_fsWrite_ne, fsLookup_ensure_directory, ne_eq,
           not_false_eq_true, String.reduceEq]
         done)
      | (refine Or.inr ?_
         simp only [fsLookup_fsWrite_self, fsLookup_fsWrite_ne, fsLookup_ensure_directory,
           ne_eq, not_false_eq_true, String.reduceEq]
         done)
    case hwri =>
      simp only [wvStOk, wvStFail, wvStFailMid, eoStOk, eoStFail, eoStFailMid, wriStOk,
        wriStFail, wriStFailMid, stPrint, stGet, stPrint_fs, stGet_fs, wvJsonPath,
        wvPngPath, eoJsonPath, eoJpgPath, wriJsonPath, wriCsvPath, wriReadmePath]
      rw [ph_frame_wriJson]
      first
      | (refine Or.inl ?_
         simp only [fsLookup_fsWrite_ne, fsLookup_ensure_directory, ne_eq,
           not_false_eq_true, String.reduceEq]
         done)
      | (refine Or.inr ?_
         simp only [fsLookup_fsWrite_self, fsLookup_fsWrite_ne, fsLookup_ensure_directory,
           ne_eq, not_false_eq_true, String.reduceEq]
         done)

/-- C5 counterexample: with every fetch succeeding but the unguarded
write of the worldview metadata sidecar failing, `mainRun` terminates
with an uncaught I/O error raised past the Fetch Helper, refuting the
claim that every error is caught at the Fetch Helper boundary. -/
theorem mainRun_error_counterexample :
    mainRun sysWvJsonWriteFails stEmpty =
      .error (.ioError "data/worldview/worldview_truecolor_2020-01-01.json") := rfl

/-- C5 (amended): network and in-helper errors are caught at the Fetch
Helper, so whenever the unguarded filesystem writes (metadata sidecars,
WRI README, placeholders) succeed, no error terminates the run, for
every network outcome. -/
theorem errors_confined_to_fetch_helper_amended (sys : Sys) (st : St)
    (hw : ∀ p, sys.wok p = true) :
    ∃ r : MainResult, mainRun sys st = .ok r := by
  obtain ⟨r, hr, -⟩ := mainRun_ok sys st hw
  exact ⟨r, hr⟩

/-- C5 witness: the amended theorem applied to the all-writes-succeed,
all-fetches-fail oracle. -/
theorem errors_confined_to_fetch_helper_amended_witness :
    (∀ p, sysAllFail.wok p = true) ∧ ∃ r : MainResult, mainRun sysAllFail stEmpty = .ok r :=
  ⟨fun _ => rfl, errors_confined_to_fetch_helper_amended sysAllFail stEmpty (fun _ => rfl)⟩

/-- C7: for every combination of per-source download outcomes (and
successful unguarded writes), the driver performs the full sequence,
ends by printing the completion line, and returns exit code 0. -/
theorem run_always_exits_zero (sys : Sys) (st : St) (hw : ∀ p, sys.wok p = true) :
    ∃ r : MainResult, mainRun sys st = .ok r ∧ r.exitCode = 0 ∧
      r.st.output.getLast? = some (.print ("Completed with " ++ toString r.successes ++
        " successful downloads")) := by
  obtain ⟨r, hr, hexit, -, -, -, hlast, -⟩ := mainRun_ok sys st hw
  exact ⟨r, hr, hexit, hlast⟩

/-- C7 witness: the theorem applied to the all-fetches-fail oracle. -/
theorem run_always_exits_zero_witness :
    (∀ p, sysAllFail.wok p = true) ∧
    ∃ r : MainResult, mainRun sysAllFail stEmpty = .ok r ∧ r.exitCode = 0 ∧
      r.st.output.getLast? = some (.print ("Completed with " ++ toString r.successes ++
        " successful downloads")) :=
  ⟨fun _ => rfl, run_always_exits_zero sysAllFail stEmpty (fun _ => rfl)⟩

/-- C8: the driver attempts its GETs in the fixed order worldview,
earth-observatory, WRI, and the placeholder step runs afterwards,
unconditionally, whatever the outcome of every fetch. -/
theorem driver_fixed_step_order (sys : Sys) (st : St) (hw : ∀ p, sys.wok p = true) :
    ∃ r : MainResult, mainRun sys st = .ok r ∧
      r.st.output.filter Ev.isGet = st.output.filter Ev.isGet ++
        [Ev.get wvUrl 60, Ev.get eoUrl 60, Ev.get wriUrl0 60] ∧
      (∀ kv ∈ placeholders, (fsLookup r.st.fs (placeholderReadmePath kv.1)).isSome = true) := by
  obtain ⟨r, hr, -, -, hgets, hph, -⟩ := mainRun_ok sys st hw
  exact ⟨r, hr, hgets, hph⟩

/-- C8 witness: the theorem applied to the all-fetches-succeed oracle. -/
theorem driver_fixed_step_order_witness :
    (∀ p, sysAllOk.wok p = true) ∧
    ∃ r : MainResult, mainRun sysAllOk stEmpty = .ok r ∧
      r.st.output.filter Ev.isGet = stEmpty.output.filter Ev.isGet ++
        [Ev.get wvUrl 60, Ev.get eoUrl 60, Ev.get wriUrl0 60] ∧
      (∀ kv ∈ placeholders, (fsLookup r.st.fs (placeholderReadmePath kv.1)).isSome = true) :=
  ⟨fun _ => rfl, driver_fixed_step_order sysAllOk stEmpty (fun _ => rfl)⟩

/-- C4: the success counter returned by the driver equals the number of
the three orchestrators that returned a successful path (each of which
succeeds exactly when its fetch succeeds), and it never exceeds 3 (it is
a natural number, so it is never negative). -/
theorem success_counter_bounds_and_value (sys : Sys) (st : St) (hw : ∀ p, sys.wok p = true) :
    ∃ r : MainResult, mainRun sys st = .ok r ∧
      r.successes = (sys.net wvUrl 60).isOk.toNat + (sys.net eoUrl 60).isOk.toNat +
        (sys.net wriUrl0 60).isOk.toNat ∧
      r.successes ≤ 3 ∧
      (∀ s : St, ∃ q, download_worldview_sample sys s = .ok q ∧
        q.1.isSome = (sys.net wvUrl 60).isOk) ∧
      (∀ s : St, ∃ q, download_earth_observatory_sample sys s = .ok q ∧
        q.1.isSome = (sys.net eoUrl 60).isOk) ∧
      (∀ s : St, ∃ q, download_wri_sample sys s = .ok q ∧
        q.1.isSome = (sys.net wriUrl0 60).isOk) := by
  obtain ⟨r, hr, -, hcnt, -⟩ := mainRun_ok sys st hw
  refine ⟨r, hr, hcnt, ?_, ?_, ?_, ?_⟩
  · rw [hcnt]
    have t1 : (sys.net wvUrl 60).isOk.toNat ≤ 1 := by
      cases sys.net wvUrl 60 <;> simp [FetchOutcome.isOk]
    have t2 : (sys.net eoUrl 60).isOk.toNat ≤ 1 := by
      cases sys.net eoUrl 60 <;> simp [FetchOutcome.isOk]
    have t3 : (sys.net wriUrl0 60).isOk.toNat ≤ 1 := by
      cases sys.net wriUrl0 60 <;> simp [FetchOutcome.isOk]
    omega
  · intro s
    rcases hnet : sys.net wvUrl 60 with b | _ | pb
    · exact ⟨(some wvPngPath, wvStOk s b),
        download_worldview_sample_ok sys s b hnet (hw _), by simp [FetchOutcome.isOk]⟩
    · exact ⟨(none, wvStFail s), download_worldview_sample_fail sys s hnet,
        by simp [FetchOutcome.isOk]⟩
    · exact ⟨(none, wvStFailMid s pb), download_worldview_sample_failMid sys s pb hnet,
        by simp [FetchOutcome.isOk]⟩
  · intro s
    rcases hnet : sys.net eoUrl 60 with b | _ | pb
    · exact ⟨(some eoJpgPath, eoStOk s b),
        download_earth_observatory_sample_ok sys s b hnet (hw _), by simp [FetchOutcome.isOk]⟩
    · exact ⟨(none, eoStFail s), download_earth_observatory_sample_fail sys s hnet,
        by simp [FetchOutcome.isOk]⟩
    · exact ⟨(none, eoStFailMid s pb), download_earth_observatory_sample_failMid sys s pb hnet,
        by simp [FetchOutcome.isOk]⟩
  · intro s
    rcases hnet : sys.net wriUrl0 60 with b | _ | pb
    · exact ⟨(some wriCsvPath, wriStOk s b),
        download_wri_sample_ok sys s b hnet (hw _), by simp [FetchOutcome.isOk]⟩
    · exact ⟨(none, wriStFail s), download_wri_sample_fail sys s hnet (hw _),
        by simp [FetchOutcome.isOk]⟩
    · exact ⟨(none, wriStFailMid s pb), download_wri_sample_failMid sys s pb hnet (hw _),
        by simp [FetchOutcome.isOk]⟩

/-- C4 witness: the theorem applied to the all-fetches-succeed oracle. -/
theorem success_counter_bounds_and_value_witness :
    (∀ p, sysAllOk.wok p = true) ∧
    ∃ r : MainResult, mainRun sysAllOk stEmpty = .ok r ∧
      r.successes = (sysAllOk.net wvUrl 60).isOk.toNat + (sysAllOk.net eoUrl 60).isOk.toNat +
        (sysAllOk.net wriUrl0 60).isOk.toNat ∧
      r.successes ≤ 3 ∧
      (∀ s : St, ∃ q, download_worldview_sample sysAllOk s = .ok q ∧
        q.1.isSome = (sysAllOk.net wvUrl 60).isOk) ∧
      (∀ s : St, ∃ q, download_earth_observatory_sample sysAllOk s = .ok q ∧
        q.1.isSome = (sysAllOk.net eoUrl 60).isOk) ∧
      (∀ s : St, ∃ q, download_wri_sample sysAllOk s = .ok q ∧
        q.1.isSome = (sysAllOk.net wriUrl0 60).isOk) :=
  ⟨fun _ => rfl, success_counter_bounds_and_value sysAllOk stEmpty (fun _ => rfl)⟩

/-- C9: every metadata sidecar a run from the empty filesystem leaves on
disk is well formed: it parses back as JSON to a key-sorted mapping,
uses two-space indentation, and binds both `source` and `url` to
non-empty strings. -/
theorem metadata_sidecars_roundtrip (sys : Sys) (hw : ∀ p, sys.wok p = true) :
    ∃ r : MainResult, mainRun sys stEmpty = .ok r ∧
      ∀ p ∈ [wvJsonPath, eoJsonPath, wriJsonPath], ∀ c,
        fsLookup r.st.fs p = some c → metadataDocOk c = true := by
  obtain ⟨r, hr, -, -, -, -, -, hwv, heo, hwri⟩ := mainRun_ok sys stEmpty hw
  refine ⟨r, hr, ?_⟩
  intro p hp c hc
  have hnone : fsLookup stEmpty.fs p = none := rfl
  simp only [List.mem_cons, List.not_mem_nil, or_false] at hp
  rcases hp with h | h | h
  · subst h
    rcases hwv with h' | h'
    · rw [h', hnone] at hc
      exact Option.noConfusion hc
    · rw [h'] at hc
      cases hc
      exact wv_sidecar_ok
  · subst h
    rcases heo with h' | h'
    · rw [h', hnone] at hc
      exact Option.noConfusion hc
    · rw [h'] at hc
      cases hc
      exact eo_sidecar_ok
  · subst h
    rcases hwri with h' | h'
    · rw [h', hnone] at hc
      exact Option.noConfusion hc
    · rw [h'] at hc
      cases hc
      exact wri_sidecar_ok

/-- C9 witness: the theorem applied to the all-fetches-succeed oracle. -/
theorem metadata_sidecars_roundtrip_witness :
    (∀ p, sysAllOk.wok p = true) ∧
    ∃ r : MainResult, mainRun sysAllOk stEmpty = .ok r ∧
      ∀ p ∈ [wvJsonPath, eoJsonPath, wriJsonPath], ∀ c,
        fsLookup r.st.fs p = some c → metadataDocOk c = true :=
  ⟨fun _ => rfl, metadata_sidecars_roundtrip sysAllOk (fun _ => rfl)⟩

/-- C1: the WRI download tries its candidate URLs strictly in listed
order and attempts none after the first success (at which it returns the
CSV output path), and it writes the instructions README exactly when
every candidate failed (returning no path); `download_wri_sample` is
this loop run on the script's candidate list. -/
theorem wri_candidates_tried_in_order (sys : Sys) (st : St) (cands : List String)
    (hw : ∀ p, sys.wok p = true) :
    (∃ res st', wriLoop sys cands st = .ok (res, st') ∧
      st'.output.filter Ev.isGet =
        st.output.filter Ev.isGet ++ (wriTried sys cands).map (fun u => Ev.get u 60) ∧
      (res.isSome = true ↔ ∃ u ∈ cands, (sys.net u 60).isOk = true) ∧
      (res ≠ none → res = some wriCsvPath) ∧
      ((∀ u ∈ cands, (sys.net u 60).isOk = false) →
        res = none ∧ fsLookup st'.fs wriReadmePath = some wriFallbackText) ∧
      ((∃ u ∈ cands, (sys.net u 60).isOk = true) →
        fsLookup st'.fs wriReadmePath = fsLookup st.fs wriReadmePath)) ∧
    download_wri_sample sys st =
      wriLoop sys wriCandidates { st with fs := ensure_directory st.fs "data/wri" } :=
  ⟨wriLoop_spec sys hw cands st, rfl⟩

/-- C1 witness: the theorem applied to a two-candidate list whose first
URL fails and whose second succeeds; only those two GETs happen, in
order, and the run returns the CSV path without touching the README. -/
theorem wri_candidates_tried_in_order_witness :
    (∀ p, sysSecondOk.wok p = true) ∧ wriTried sysSecondOk ["u1", "u2"] = ["u1", "u2"] ∧
    ((∃ res st', wriLoop sysSecondOk ["u1", "u2"] stEmpty = .ok (res, st') ∧
      st'.output.filter Ev.isGet =
        stEmpty.output.filter Ev.isGet ++
          (wriTried sysSecondOk ["u1", "u2"]).map (fun u => Ev.get u 60) ∧
      (res.isSome = true ↔ ∃ u ∈ ["u1", "u2"], (sysSecondOk.net u 60).isOk = true) ∧
      (res ≠ none → res = some wriCsvPath) ∧
      ((∀ u ∈ ["u1", "u2"], (sysSecondOk.net u 60).isOk = false) →
        res = none ∧ fsLookup st'.fs wriReadmePath = some wriFallbackText) ∧
      ((∃ u ∈ ["u1", "u2"], (sysSecondOk.net u 60).isOk = true) →
        fsLookup st'.fs wriReadmePath = fsLookup stEmpty.fs wriReadmePath)) ∧
    download_wri_sample sysSecondOk stEmpty =
      wriLoop sysSecondOk wriCandidates
        { stEmpty with fs := ensure_directory stEmpty.fs "data/wri" }) :=
  ⟨fun _ => rfl, by decide,
    wri_candidates_tried_in_order sysSecondOk stEmpty ["u1", "u2"] (fun _ => rfl)⟩

/-- C2 counterexample: a worldview fetch that fails mid-stream (lines
46-49: `open(out_path, "wb")` truncates the destination inside the
streaming `try`, so the chunks flushed before the error remain) returns
failure yet leaves a data file holding the partial body at the PNG
destination, which was absent before — refuting the claim that a failed
fetch leaves neither file on disk. -/
theorem failed_fetch_partial_file_counterexample :
    fsLookup stEmpty.fs wvPngPath = none ∧
    download_worldview_sample sysMidFail stEmpty = .ok (none, wvStFailMid stEmpty "PART") ∧
    fsLookup (wvStFailMid stEmpty "PART").fs wvPngPath = some "PART" :=
  ⟨rfl, rfl, rfl⟩

/-- C2 (amended): for each primary source, a successful fetch leaves
both the data file and its metadata sidecar on disk; a failed fetch
produces no sidecar (the sidecar path is left exactly as it was), and
leaves the data path untouched when the failure occurs before the
destination is opened, but when the failure occurs mid-stream the data
path holds the partial body flushed before the error (truncating any
prior content); the CSV source's total failure additionally leaves the
README instructions file. -/
theorem fetch_success_and_failure_artifacts (sys : Sys) (st : St)
    (hw : ∀ p, sys.wok p = true) :
    (∀ b, sys.net wvUrl 60 = .ok b →
      ∃ st', download_worldview_sample sys st = .ok (some wvPngPath, st') ∧
        fsLookup st'.fs wvPngPath = some b ∧
        fsLookup st'.fs wvJsonPath = some (jsonDumpObj (worldviewMetadata "2020-01-01"))) ∧
    (sys.net wvUrl 60 = .failEarly →
      ∃ st', download_worldview_sample sys st = .ok (none, st') ∧
        fsLookup st'.fs wvPngPath = fsLookup st.fs wvPngPath ∧
        fsLookup st'.fs wvJsonPath = fsLookup st.fs wvJsonPath) ∧
    (∀ pb, sys.net wvUrl 60 = .failMid pb →
      ∃ st', download_worldview_sample sys st = .ok (none, st') ∧
        fsLookup st'.fs wvPngPath = some pb ∧
        fsLookup st'.fs wvJsonPath = fsLookup st.fs wvJsonPath) ∧
    (∀ b, sys.net eoUrl 60 = .ok b →
      ∃ st', download_earth_observatory_sample sys st = .ok (some eoJpgPath, st') ∧
        fsLookup st'.fs eoJpgPath = some b ∧
        fsLookup st'.fs eoJsonPath = some (jsonDumpObj eoMetadata)) ∧
    (sys.net eoUrl 60 = .failEarly →
      ∃ st', download_earth_observatory_sample sys st = .ok (none, st') ∧
        fsLookup st'.fs eoJpgPath = fsLookup st.fs eoJpgPath ∧
        fsLookup st'.fs eoJsonPath = fsLookup st.fs eoJsonPath) ∧
    (∀ pb, sys.net eoUrl 60 = .failMid pb →
      ∃ st', download_earth_observatory_sample sys st = .ok (none, st') ∧
        fsLookup st'.fs eoJpgPath = some pb ∧
        fsLookup st'.fs eoJsonPath = fsLookup st.fs eoJsonPath) ∧
    (∀ b, sys.net wriUrl0 60 = .ok b →
      ∃ st', download_wri_sample sys st = .ok (some wriCsvPath, st') ∧
        fsLookup st'.fs wriCsvPath = some b ∧
        fsLookup st'.fs wriJsonPath = some (jsonDumpObj (wriMetadata wriUrl0)) ∧
        fsLookup st'.fs wriReadmePath = fsLookup st.fs wriReadmePath) ∧
    (sys.net wriUrl0 60 = .failEarly →
      ∃ st', download_wri_sample sys st = .ok (none, st') ∧
        fsLookup st'.fs wriReadmePath = some wriFallbackText ∧
        fsLookup st'.fs wriCsvPath = fsLookup st.fs wriCsvPath ∧
        fsLookup st'.fs wriJsonPath = fsLookup st.fs wriJsonPath) ∧
    (∀ pb, sys.net wriUrl0 60 = .failMid pb →
      ∃ st', download_wri_sample sys st = .ok (none, st') ∧
        fsLookup st'.fs wriReadmePath = some wriFallbackText ∧
        fsLookup st'.fs wriCsvPath = some pb ∧
        fsLookup st'.fs wriJsonPath = fsLookup st.fs wriJsonPath) := by
  refine ⟨?_, ?_, ?_, ?_, ?_, ?_, ?_, ?_, ?_⟩
  · intro b hnet
    exact ⟨wvStOk st b, download_worldview_sample_ok sys st b hnet (hw _),
      by simp [wvStOk, wvPngPath, wvJsonPath], by simp [wvStOk]⟩
  · intro hnet
    exact ⟨wvStFail st, download_worldview_sample_fail sys st hnet,
      by simp [wvStFail], by simp [wvStFail]⟩
  · intro pb hnet
    exact ⟨wvStFailMid st pb, download_worldview_sample_failMid sys st pb hnet,
      by simp [wvStFailMid], by simp [wvStFailMid, wvPngPath, wvJsonPath]⟩
  · intro b hnet
    exact ⟨eoStOk st b, download_earth_observatory_sample_ok sys st b hnet (hw _),
      by simp [eoStOk, eoJpgPath, eoJsonPath], by simp [eoStOk]⟩
  · intro hnet
    exact ⟨eoStFail st, download_earth_observatory_sample_fail sys st hnet,
      by simp [eoStFail], by simp [eoStFail]⟩
  · intro pb hnet
    exact ⟨eoStFailMid st pb, download_earth_observatory_sample_failMid sys st pb hnet,
      by simp [eoStFailMid], by simp [eoStFailMid, eoJpgPath, eoJsonPath]⟩
  · intro b hnet
    exact ⟨wriStOk st b, download_wri_sample_ok sys st b hnet (hw _),
      by simp [wriStOk, wriCsvPath, wriJsonPath], by simp [wriStOk],
      by simp [wriStOk, wriReadmePath, wriCsvPath, wriJsonPath]⟩
  · intro hnet
    exact ⟨wriStFail st, download_wri_sample_fail sys st hnet (hw _),
      by simp [wriStFail], by simp [wriStFail, wriReadmePath, wriCsvPath],
      by simp [wriStFail, wriReadmePath, wriJsonPath]⟩
  · intro pb hnet
    exact ⟨wriStFailMid st pb, download_wri_sample_failMid sys st pb hnet (hw _),
      by simp [wriStFailMid], by simp [wriStFailMid, wriReadmePath, wriCsvPath],
      by simp [wriStFailMid, wriReadmePath, wriCsvPath, wriJsonPath]⟩

/-- C2 witness: the worldview success clause at the all-fetches-succeed
oracle, the WRI total-early-failure clause at the all-fetches-fail
oracle, and the worldview mid-stream-failure clause at the mid-failing
oracle, which leaves the partial body on disk. -/
theorem fetch_success_and_failure_artifacts_witness :
    (∃ st', download_worldview_sample sysAllOk stEmpty = .ok (some wvPngPath, st') ∧
      fsLookup st'.fs wvPngPath = some "BODY" ∧
      fsLookup st'.fs wvJsonPath = some (jsonDumpObj (worldviewMetadata "2020-01-01"))) ∧
    (∃ st', download_wri_sample sysAllFail stEmpty = .ok (none, st') ∧
      fsLookup st'.fs wriReadmePath = some wriFallbackText ∧
      fsLookup st'.fs wriCsvPath = fsLookup stEmpty.fs wriCsvPath ∧
      fsLookup st'.fs wriJsonPath = fsLookup stEmpty.fs wriJsonPath) ∧
    (∃ st', download_worldview_sample sysMidFail stEmpty = .ok (none, st') ∧
      fsLookup st'.fs wvPngPath = some "PART" ∧
      fsLookup st'.fs wvJsonPath = fsLookup stEmpty.fs wvJsonPath) :=
  ⟨(fetch_success_and_failure_artifacts sysAllOk stEmpty (fun _ => rfl)).1 "BODY" rfl,
   (fetch_success_and_failure_artifacts sysAllFail stEmpty
      (fun _ => rfl)).2.2.2.2.2.2.2.1 rfl,
   (fetch_success_and_failure_artifacts sysMidFail stEmpty (fun _ => rfl)).2.2.1 "PART" rfl⟩

/-- C3: the placeholder writer succeeds, each of the five provider texts
is distinct and non-empty, a README is written only where none exists
(and then with the provider's text), no existing file is ever changed,
and a second run changes no file at all, so pre-existing instructions
files stay byte-identical. -/
theorem placeholder_writer_idempotent_no_clobber (sys : Sys) (st : St)
    (hw : ∀ p, sys.wok p = true) :
    ∃ st₁ st₂,
      write_placeholders_for_sedac_worldpop_ghsl_copernicus_eotoolkit sys st = .ok st₁ ∧
      write_placeholders_for_sedac_worldpop_ghsl_copernicus_eotoolkit sys st₁ = .ok st₂ ∧
      List.Pairwise (fun a b => a ≠ b) (placeholders.map (fun kv => kv.2)) ∧
      (∀ kv ∈ placeholders, kv.2 ≠ "") ∧
      (∀ kv ∈ placeholders, (fsLookup st₁.fs (placeholderReadmePath kv.1)).isSome = true) ∧
      (∀ kv ∈ placeholders, fsLookup st.fs (placeholderReadmePath kv.1) = none →
        fsLookup st₁.fs (placeholderReadmePath kv.1) = some kv.2) ∧
      (∀ p c, fsLookup st.fs p = some c → fsLookup st₁.fs p = some c) ∧
      (∀ p, fsLookup st₂.fs p = fsLookup st₁.fs p) := by
  refine ⟨placeholdersRun placeholders st, placeholdersRun placeholders
    (placeholdersRun placeholders st), ?_, ?_, by decide, by decide, ?_, ?_, ?_, ?_⟩
  · exact placeholdersLoop_eq_run sys hw placeholders st
  · exact placeholdersLoop_eq_run sys hw placeholders _
  · exact (placeholdersRun_spec placeholders st).2.2.1
  · exact fun kv hkv hnone => (placeholdersRun_spec placeholders st).2.2.2 (by decide) kv hkv hnone
  · exact (placeholdersRun_spec placeholders st).2.1
  · intro p
    by_cases hp : ∀ kv ∈ placeholders, p ≠ placeholderReadmePath kv.1
    · exact (placeholdersRun_spec placeholders (placeholdersRun placeholders st)).1 p hp
    · push_neg at hp
      obtain ⟨kv, hkv, hpe⟩ := hp
      have hsome := (placeholdersRun_spec placeholders st).2.2.1 kv hkv
      obtain ⟨c, hc⟩ := Option.isSome_iff_exists.mp hsome
      subst hpe
      rw [hc]
      exact (placeholdersRun_spec placeholders (placeholdersRun placeholders st)).2.1 _ c hc

/-- C3 witness: the theorem applied at the empty filesystem with the
all-fetches-fail oracle. -/
theorem placeholder_writer_idempotent_no_clobber_witness :
    (∀ p, sysAllFail.wok p = true) ∧
    ∃ st₁ st₂,
      write_placeholders_for_sedac_worldpop_ghsl_copernicus_eotoolkit sysAllFail stEmpty
        = .ok st₁ ∧
      write_placeholders_for_sedac_worldpop_ghsl_copernicus_eotoolkit sysAllFail st₁ = .ok st₂ ∧
      List.Pairwise (fun a b => a ≠ b) (placeholders.map (fun kv => kv.2)) ∧
      (∀ kv ∈ placeholders, kv.2 ≠ "") ∧
      (∀ kv ∈ placeholders, (fsLookup st₁.fs (placeholderReadmePath kv.1)).isSome = true) ∧
      (∀ kv ∈ placeholders, fsLookup stEmpty.fs (placeholderReadmePath kv.1) = none →
        fsLookup st₁.fs (placeholderReadmePath kv.1) = some kv.2) ∧
      (∀ p c, fsLookup stEmpty.fs p = some c → fsLookup st₁.fs p = some c) ∧
      (∀ p, fsLookup st₂.fs p = fsLookup st₁.fs p) :=
  ⟨fun _ => rfl, placeholder_writer_idempotent_no_clobber sysAllFail stEmpty (fun _ => rfl)⟩

/-- C10: when its single candidate fails, `download_wri_sample` writes
the instructions README in overwrite mode with no existence check: the
README path holds the static fallback text afterwards whatever it held
before; in contrast the five-provider placeholder writer leaves any
existing README untouched. -/
theorem wri_readme_overwrite_mode (sys : Sys) (st : St) (hw : ∀ p, sys.wok p = true)
    (hnet : (sys.net wriUrl0 60).isOk = false) :
    ∃ st', download_wri_sample sys st = .ok (none, st') ∧
      fsLookup st'.fs wriReadmePath = some wriFallbackText ∧
      (∀ kv ∈ placeholders, ∀ c, fsLookup st.fs (placeholderReadmePath kv.1) = some c →
        ∃ st₂, write_placeholders_for_sedac_worldpop_ghsl_copernicus_eotoolkit sys st
            = .ok st₂ ∧
          fsLookup st₂.fs (placeholderReadmePath kv.1) = some c) := by
  have hcontrast : ∀ kv ∈ placeholders, ∀ c,
      fsLookup st.fs (placeholderReadmePath kv.1) = some c →
      ∃ st₂, write_placeholders_for_sedac_worldpop_ghsl_copernicus_eotoolkit sys st
          = .ok st₂ ∧
        fsLookup st₂.fs (placeholderReadmePath kv.1) = some c := by
    intro kv hkv c hc
    exact ⟨placeholdersRun placeholders st, placeholdersLoop_eq_run sys hw placeholders st,
      (placeholdersRun_spec placeholders st).2.1 _ c hc⟩
  rcases hb : sys.net wriUrl0 60 with b | _ | pb
  · rw [hb] at hnet
    exact absurd hnet (by simp [FetchOutcome.isOk])
  · exact ⟨wriStFail st, download_wri_sample_fail sys st hb (hw _),
      by simp [wriStFail], hcontrast⟩
  · exact ⟨wriStFailMid st pb, download_wri_sample_failMid sys st pb hb (hw _),
      by simp [wriStFailMid], hcontrast⟩

/-- C10 witness: the theorem applied to a state whose WRI README already
holds old content; after the failing run the README holds the fallback
text instead. -/
theorem wri_readme_overwrite_mode_witness :
    fsLookup stOldWriReadme.fs wriReadmePath = some "OLD CONTENT" ∧
    (∃ st', download_wri_sample sysAllFail stOldWriReadme = .ok (none, st') ∧
      fsLookup st'.fs wriReadmePath = some wriFallbackText ∧
      (∀ kv ∈ placeholders, ∀ c,
        fsLookup stOldWriReadme.fs (placeholderReadmePath kv.1) = some c →
        ∃ st₂, write_placeholders_for_sedac_worldpop_ghsl_copernicus_eotoolkit sysAllFail
            stOldWriReadme = .ok st₂ ∧
          fsLookup st₂.fs (placeholderReadmePath kv.1) = some c)) :=
  ⟨rfl, wri_readme_overwrite_mode sysAllFail stOldWriReadme (fun _ => rfl) rfl⟩

/-- C6: the Fetch Helper contract: calls without a timeout use the
60-second default; on a GET that fails before the destination is opened
it returns failure with the state unchanged apart from a diagnostic
line; on a GET that fails mid-stream (the in-helper I/O case) it
likewise returns failure with a diagnostic, propagating nothing; on
success it has created the destination's parent directory and written
the full body at the destination, overwriting whatever was there; and
every call performs exactly one GET attempt (no retries). -/
theorem http_download_contract :
    (∀ sys url st out, http_download sys url st out = http_downloadT sys url st out 60) ∧
    (∀ (sys : Sys) url (st : St) out t, sys.net url t = .failEarly →
      http_downloadT sys url st out t =
        (false, stPrint (stGet st url t) ("Failed to download " ++ url))) ∧
    (∀ (sys : Sys) url (st : St) out t pb, sys.net url t = .failMid pb →
      http_downloadT sys url st out t =
        (false, stPrint (St.mk (fsWrite (ensure_directory st.fs (parentDir out)) out pb)
          (st.output ++ [Ev.get url t])) ("Failed to download " ++ url))) ∧
    (∀ (sys : Sys) url (st : St) out t b, sys.net url t = .ok b →
      http_downloadT sys url st out t =
        (true, St.mk (fsWrite (ensure_directory st.fs (parentDir out)) out b)
          (st.output ++ [Ev.get url t])) ∧
      fsLookup (fsWrite (ensure_directory st.fs (parentDir out)) out b) out = some b ∧
      parentDir out ∈ (fsWrite (ensure_directory st.fs (parentDir out)) out b).dirs) ∧
    (∀ (sys : Sys) url (st : St) out t,
      ((http_downloadT sys url st out t).2).output.filter Ev.isGet =
        st.output.filter Ev.isGet ++ [Ev.get url t]) := by
  refine ⟨fun _ _ _ _ => rfl, ?_, ?_, ?_, ?_⟩
  · intro sys url st out t h
    simp only [http_downloadT, h]
  · intro sys url st out t pb h
    simp only [http_downloadT, h]
    rfl
  · intro sys url st out t b h
    refine ⟨by simp only [http_downloadT, h]; rfl, by simp,
      mem_ensure_directory_dirs st.fs (parentDir out)⟩
  · intro sys url st out t
    rcases h : sys.net url t with b | _ | pb
    · simp [http_downloadT, h, stGet, stPrint, Ev.isGet, List.filter_append]
    · simp [http_downloadT, h, stGet, stPrint, Ev.isGet, List.filter_append]
    · simp [http_downloadT, h, stGet, stPrint, Ev.isGet, List.filter_append]

/-- C6 witness: the early-failure clause at the all-fetches-fail oracle,
the mid-stream-failure clause at the mid-failing oracle, and the success
clause at the all-fetches-succeed oracle, at a concrete URL and
destination. -/
theorem http_download_contract_witness :
    http_downloadT sysAllFail "u" stEmpty "d/o" 60 =
      (false, stPrint (stGet stEmpty "u" 60) ("Failed to download " ++ "u")) ∧
    http_downloadT sysMidFail "u" stEmpty "d/o" 60 =
      (false, stPrint (St.mk (fsWrite (ensure_directory stEmpty.fs (parentDir "d/o"))
        "d/o" "PART") (stEmpty.output ++ [Ev.get "u" 60])) ("Failed to download " ++ "u")) ∧
    http_downloadT sysAllOk "u" stEmpty "d/o" 60 =
      (true, St.mk (fsWrite (ensure_directory stEmpty.fs (parentDir "d/o")) "d/o" "BODY")
        (stEmpty.output ++ [Ev.get "u" 60])) :=
  ⟨http_download_contract.2.1 sysAllFail "u" stEmpty "d/o" 60 rfl,
   http_download_contract.2.2.1 sysMidFail "u" stEmpty "d/o" 60 "PART" rfl,
   (http_download_contract.2.2.2.1 sysAllOk "u" stEmpty "d/o" 60 "BODY" rfl).1⟩
